import Mathlib

/-!
Verification of the Connected Development SX1262 shield board-support
package (`RALBSP/ral_sx126x_bsp.c`): a shallow embedding of the power
configuration resolver, its static power table, and the constant
board-query callbacks, with theorems about their behaviour.
-/

namespace RalSx126xBsp

/-- Embedding of `sx126x_pa_cfg_params_t`: the four power-amplifier
register fields. Each is a small unsigned byte; we model them as `Nat`. -/
structure Sx126xPaCfgParams where
  hp_max : Nat
  pa_duty_cycle : Nat
  device_sel : Nat
  pa_lut : Nat
deriving DecidableEq, Repr

/-- Embedding of `CDShieldSx1262PaPwrCfg_t`: an achievable output power
(`int8_t`, modelled as `Int`) paired with a PA register configuration. -/
structure CDShieldSx1262PaPwrCfg_t where
  power : Int
  paConfig : Sx126xPaCfgParams
deriving DecidableEq, Repr

/-- `CD_SHIELD_SX1262_SUBGHZ_FREQ_MIN` (Hz). -/
def CD_SHIELD_SX1262_SUBGHZ_FREQ_MIN : Nat := 150000000

/-- `CD_SHIELD_SX1262_SUBGHZ_FREQ_MAX` (Hz). -/
def CD_SHIELD_SX1262_SUBGHZ_FREQ_MAX : Nat := 960000000

/-- `CD_SHIELD_SX1262_MIN_PWR` (dBm). -/
def CD_SHIELD_SX1262_MIN_PWR : Int := -9

/-- `CD_SHIELD_SX1262_MAX_PWR` (dBm). -/
def CD_SHIELD_SX1262_MAX_PWR : Int := 22

/-- The static `paCfgTable`, one entry per integer dBm from -9 to 22,
transcribed field for field from the source. Fields in the order
`hp_max`, `pa_duty_cycle`, `device_sel`, `pa_lut`. -/
def paCfgTable : List CDShieldSx1262PaPwrCfg_t := [
  ⟨2,  ⟨0x01, 0x01, 0x00, 0x01⟩⟩,  -- Expected output power = -9dBm
  ⟨5,  ⟨0x01, 0x00, 0x00, 0x01⟩⟩,  -- Expected output power = -8dBm
  ⟨5,  ⟨0x01, 0x01, 0x00, 0x01⟩⟩,  -- Expected output power = -7dBm
  ⟨8,  ⟨0x01, 0x00, 0x00, 0x01⟩⟩,  -- Expected output power = -6dBm
  ⟨3,  ⟨0x02, 0x00, 0x00, 0x01⟩⟩,  -- Expected output power = -5dBm
  ⟨9,  ⟨0x01, 0x00, 0x00, 0x01⟩⟩,  -- Expected output power = -4dBm
  ⟨10, ⟨0x01, 0x00, 0x00, 0x01⟩⟩,  -- Expected output power = -3dBm
  ⟨11, ⟨0x01, 0x00, 0x00, 0x01⟩⟩,  -- Expected output power = -2dBm
  ⟨13, ⟨0x01, 0x01, 0x00, 0x01⟩⟩,  -- Expected output power = -1dBm
  ⟨19, ⟨0x01, 0x01, 0x00, 0x01⟩⟩,  -- Expected output power = 0dBm
  ⟨16, ⟨0x01, 0x01, 0x00, 0x01⟩⟩,  -- Expected output power = 1dBm
  ⟨20, ⟨0x01, 0x00, 0x00, 0x01⟩⟩,  -- Expected output power = 2dBm
  ⟨18, ⟨0x01, 0x03, 0x00, 0x01⟩⟩,  -- Expected output power = 3dBm
  ⟨21, ⟨0x01, 0x00, 0x00, 0x01⟩⟩,  -- Expected output power = 4dBm
  ⟨16, ⟨0x02, 0x00, 0x00, 0x01⟩⟩,  -- Expected output power = 5dBm
  ⟨22, ⟨0x01, 0x00, 0x00, 0x01⟩⟩,  -- Expected output power = 6dBm
  ⟨22, ⟨0x01, 0x01, 0x00, 0x01⟩⟩,  -- Expected output power = 7dBm
  ⟨22, ⟨0x01, 0x02, 0x00, 0x01⟩⟩,  -- Expected output power = 8dBm
  ⟨22, ⟨0x01, 0x03, 0x00, 0x01⟩⟩,  -- Expected output power = 9dBm
  ⟨22, ⟨0x01, 0x04, 0x00, 0x01⟩⟩,  -- Expected output power = 10dBm
  ⟨22, ⟨0x02, 0x00, 0x00, 0x01⟩⟩,  -- Expected output power = 11dBm
  ⟨22, ⟨0x02, 0x01, 0x00, 0x01⟩⟩,  -- Expected output power = 12dBm
  ⟨22, ⟨0x02, 0x02, 0x00, 0x01⟩⟩,  -- Expected output power = 13dBm
  ⟨22, ⟨0x02, 0x03, 0x00, 0x01⟩⟩,  -- Expected output power = 14dBm
  ⟨22, ⟨0x03, 0x01, 0x00, 0x01⟩⟩,  -- Expected output power = 15dBm
  ⟨22, ⟨0x03, 0x02, 0x00, 0x01⟩⟩,  -- Expected output power = 16dBm
  ⟨22, ⟨0x05, 0x00, 0x00, 0x01⟩⟩,  -- Expected output power = 17dBm
  ⟨22, ⟨0x05, 0x01, 0x00, 0x01⟩⟩,  -- Expected output power = 18dBm
  ⟨22, ⟨0x05, 0x02, 0x00, 0x01⟩⟩,  -- Expected output power = 19dBm
  ⟨22, ⟨0x06, 0x03, 0x00, 0x01⟩⟩,  -- Expected output power = 20dBm
  ⟨22, ⟨0x06, 0x04, 0x00, 0x01⟩⟩,  -- Expected output power = 21dBm
  ⟨22, ⟨0x07, 0x04, 0x00, 0x01⟩⟩]  -- Expected output power = 22dBm

/-- Placeholder default for out-of-bounds list reads; never actually
selected (see the in-bounds theorems). -/
def paCfgDefault : CDShieldSx1262PaPwrCfg_t := ⟨0, ⟨0, 0, 0, 0⟩⟩

/-- The table index the resolver reads. In the C code
`uint32_t idx = expectedOutputPwrInDbm - CD_SHIELD_SX1262_MIN_PWR` is
computed by `int` arithmetic then converted to `uint32_t`, hence the
`% 2^32`; the fallback branch reads index `6 - CD_SHIELD_SX1262_MIN_PWR`. -/
def CDShieldSx1262PaPwrCfgIdx (rfFreqInHz : Nat) (expectedOutputPwrInDbm : Int) : Nat :=
  if CD_SHIELD_SX1262_SUBGHZ_FREQ_MIN ≤ rfFreqInHz ∧
      rfFreqInHz ≤ CD_SHIELD_SX1262_SUBGHZ_FREQ_MAX then
    if CD_SHIELD_SX1262_MIN_PWR ≤ expectedOutputPwrInDbm ∧
        expectedOutputPwrInDbm ≤ CD_SHIELD_SX1262_MAX_PWR then
      ((expectedOutputPwrInDbm - CD_SHIELD_SX1262_MIN_PWR) % (2 ^ 32)).toNat
    else (6 - CD_SHIELD_SX1262_MIN_PWR).toNat
  else (6 - CD_SHIELD_SX1262_MIN_PWR).toNat

/-- Embedding of the static resolver `CDShieldSx1262PaPwrCfg`: guarded
table lookup with silent fallback to the 6 dBm entry. The C function
returns a pointer into `paCfgTable`; we return the pointed-to entry. -/
def CDShieldSx1262PaPwrCfg (rfFreqInHz : Nat) (expectedOutputPwrInDbm : Int) :
    CDShieldSx1262PaPwrCfg_t :=
  paCfgTable.getD (CDShieldSx1262PaPwrCfgIdx rfFreqInHz expectedOutputPwrInDbm) paCfgDefault

/-- Embedding of the `sx126x_ramp_time_t` enumeration from the SX126x
driver (10/20/40/80/200/800/1700/3400 µs). -/
inductive Sx126xRampTime where
  | RAMP_10_US
  | RAMP_20_US
  | RAMP_40_US
  | RAMP_80_US
  | RAMP_200_US
  | RAMP_800_US
  | RAMP_1700_US
  | RAMP_3400_US
deriving DecidableEq, Repr

/-- Embedding of `ral_sx126x_bsp_tx_cfg_input_params_t` (the fields the
BSP reads): frequency (`uint32_t`) and requested system power (`int8_t`). -/
structure TxCfgInputParams where
  freq_in_hz : Nat
  system_output_pwr_in_dbm : Int
deriving DecidableEq, Repr

/-- Embedding of `ral_sx126x_bsp_tx_cfg_output_params_t` (the fields the
BSP writes). -/
structure TxCfgOutputParams where
  chip_output_pwr_in_dbm_expected : Int
  chip_output_pwr_in_dbm_configured : Int
  pa_cfg : Sx126xPaCfgParams
  pa_ramp_time : Sx126xRampTime
deriving DecidableEq, Repr

/-- The `modemTxOffset` local constant of `ral_sx126x_bsp_get_tx_cfg`. -/
def modemTxOffset : Int := 0

/-- Embedding of `ral_sx126x_bsp_get_tx_cfg`: resolves the PA
configuration for the offset-adjusted requested power and fills the
output parameters. The `context` pointer is unused by the C code. -/
def ral_sx126x_bsp_get_tx_cfg (context : Unit) (inputParams : TxCfgInputParams) :
    TxCfgOutputParams :=
  let paPwrCfg := CDShieldSx1262PaPwrCfg inputParams.freq_in_hz
      (inputParams.system_output_pwr_in_dbm + modemTxOffset)
  { chip_output_pwr_in_dbm_expected :=
      inputParams.system_output_pwr_in_dbm + modemTxOffset
    chip_output_pwr_in_dbm_configured := paPwrCfg.power
    pa_cfg :=
      { device_sel := paPwrCfg.paConfig.device_sel
        hp_max := paPwrCfg.paConfig.hp_max
        pa_duty_cycle := paPwrCfg.paConfig.pa_duty_cycle
        pa_lut := paPwrCfg.paConfig.pa_lut }
    pa_ramp_time := Sx126xRampTime.RAMP_40_US }

/-- Embedding of `sx126x_reg_mod_t`. -/
inductive Sx126xRegMod where
  | LDO
  | DCDC
deriving DecidableEq, Repr

/-- Embedding of `ral_sx126x_bsp_get_reg_mode`: writes its output
parameter; modelled as returning the written value. -/
def ral_sx126x_bsp_get_reg_mode (context : Unit) : Sx126xRegMod :=
  Sx126xRegMod.DCDC

/-- Embedding of `ral_sx126x_bsp_get_ocp_value`: writes `0x38` to its
output parameter; modelled as returning the written value. -/
def ral_sx126x_bsp_get_ocp_value (context : Unit) : Nat :=
  0x38

/-- Embedding of `ral_sx126x_bsp_get_xosc_cfg`. The C body writes only
`*tcxoIsRadioControlled = false`; we model the three out-parameters by
explicit state passing: the function receives their prior values and
returns their values after the call. -/
def ral_sx126x_bsp_get_xosc_cfg (context : Unit) (tcxoIsRadioControlled : Bool)
    (supplyVoltage : Nat) (startupTimeInTick : Nat) : Bool × Nat × Nat :=
  (false, supplyVoltage, startupTimeInTick)

end RalSx126xBsp

namespace RalSx126xBsp

/-! Helper lemmas shared by the claim theorems. -/

/-- The table has exactly 32 entries. -/
theorem paCfgTable_length : paCfgTable.length = 32 := by decide

/-- Whatever the inputs, the index the resolver reads is below 32:
the guarded index equals `p + 9` with `-9 <= p <= 22`, and the fallback
index is `15`. -/
theorem paCfgIdx_lt (f : Nat) (p : Int) : CDShieldSx1262PaPwrCfgIdx f p < 32 := by
  unfold CDShieldSx1262PaPwrCfgIdx CD_SHIELD_SX1262_MIN_PWR CD_SHIELD_SX1262_MAX_PWR
  split
  · split
    · rename_i hp
      omega
    · omega
  · omega

/-- Every table slot below index 32 satisfies the PA invariant:
`device_sel = 0`, `pa_lut = 1`, and achievable power in `[2, 22]`. -/
theorem paCfgTable_entries_ok (n : Nat) (h : n < 32) :
    (paCfgTable.getD n paCfgDefault).paConfig.device_sel = 0 ∧
    (paCfgTable.getD n paCfgDefault).paConfig.pa_lut = 1 ∧
    2 ≤ (paCfgTable.getD n paCfgDefault).power ∧
    (paCfgTable.getD n paCfgDefault).power ≤ 22 := by
  revert h
  revert n
  decide

end RalSx126xBsp

namespace RalSx126xBsp

/-- C1: for every frequency `f` in `[150000000, 960000000]` and every
requested power `p` in `[-9, 22]`, the resolver returns the table entry
at index `p - (-9)`, independent of the exact value of `f` within the
band (the right-hand side does not mention `f`): an exact lookup with no
interpolation or rounding. -/
theorem in_band_exact_lookup (f : Nat) (p : Int)
    (hf1 : 150000000 ≤ f) (hf2 : f ≤ 960000000)
    (hp1 : -9 ≤ p) (hp2 : p ≤ 22) :
    CDShieldSx1262PaPwrCfg f p = paCfgTable.getD (p - (-9)).toNat paCfgDefault := by
  have hidx : CDShieldSx1262PaPwrCfgIdx f p = (p - (-9)).toNat := by
    unfold CDShieldSx1262PaPwrCfgIdx CD_SHIELD_SX1262_SUBGHZ_FREQ_MIN
      CD_SHIELD_SX1262_SUBGHZ_FREQ_MAX CD_SHIELD_SX1262_MIN_PWR CD_SHIELD_SX1262_MAX_PWR
    rw [if_pos ⟨hf1, hf2⟩, if_pos ⟨hp1, hp2⟩]
    omega
  unfold CDShieldSx1262PaPwrCfg
  rw [hidx]

/-- Witness for the in-band lookup theorem at `f = 434000000`, `p = 0`. -/
theorem in_band_exact_lookup_witness :
    (150000000 ≤ 434000000 ∧ 434000000 ≤ 960000000 ∧
      (-9 : Int) ≤ 0 ∧ (0 : Int) ≤ 22) ∧
    CDShieldSx1262PaPwrCfg 434000000 0 =
      paCfgTable.getD ((0 : Int) - (-9)).toNat paCfgDefault :=
  ⟨by decide,
   in_band_exact_lookup 434000000 0 (by decide) (by decide) (by decide) (by decide)⟩

/-- C2: whenever the frequency is out of band or the power is out of
range (or both), the resolver returns the fixed fallback entry, the
table entry at index `6 - (-9) = 15`, regardless of which bound failed;
it never signals an error (it is total and always returns an entry). -/
theorem out_of_range_fallback (f : Nat) (p : Int)
    (h : ¬(150000000 ≤ f ∧ f ≤ 960000000) ∨ ¬(-9 ≤ p ∧ p ≤ 22)) :
    CDShieldSx1262PaPwrCfg f p = paCfgTable.getD 15 paCfgDefault := by
  have hidx : CDShieldSx1262PaPwrCfgIdx f p = 15 := by
    unfold CDShieldSx1262PaPwrCfgIdx CD_SHIELD_SX1262_SUBGHZ_FREQ_MIN
      CD_SHIELD_SX1262_SUBGHZ_FREQ_MAX CD_SHIELD_SX1262_MIN_PWR CD_SHIELD_SX1262_MAX_PWR
    rcases h with h | h
    · rw [if_neg h]
      decide
    · by_cases hf : (150000000 : Nat) ≤ f ∧ f ≤ 960000000
      · rw [if_pos hf, if_neg h]
        decide
      · rw [if_neg hf]
        decide
  unfold CDShieldSx1262PaPwrCfg
  rw [hidx]

/-- Witness for the fallback theorem at `f = 1000000000`, `p = 0`
(frequency above the band). -/
theorem out_of_range_fallback_witness :
    (¬((150000000 : Nat) ≤ 1000000000 ∧ (1000000000 : Nat) ≤ 960000000) ∨
      ¬((-9 : Int) ≤ 0 ∧ (0 : Int) ≤ 22)) ∧
    CDShieldSx1262PaPwrCfg 1000000000 0 = paCfgTable.getD 15 paCfgDefault :=
  ⟨Or.inl (by decide), out_of_range_fallback 1000000000 0 (Or.inl (by decide))⟩

/-- C3 counterexample: the fallback entry returned for the out-of-band
call `resolve(1000000000, 0)` does not have `power = 10` as claimed;
its `power` field is 22. -/
theorem fallback_power_not_ten :
    ¬((CDShieldSx1262PaPwrCfg 1000000000 0).power = 10) := by decide

/-- C3 (amended): the out-of-range calls `resolve(1000000000, 0)` and
`resolve(434000000, 100)` both return the fallback entry at index 15
(the 6 dBm entry), whose field values are `power = 22`, `hp_max = 0x01`,
`pa_duty_cycle = 0x00`, `device_sel = 0x00`, `pa_lut = 0x01`. -/
theorem fallback_concrete_values :
    CDShieldSx1262PaPwrCfg 1000000000 0 = ⟨22, ⟨0x01, 0x00, 0x00, 0x01⟩⟩ ∧
    CDShieldSx1262PaPwrCfg 434000000 100 = ⟨22, ⟨0x01, 0x00, 0x00, 0x01⟩⟩ ∧
    CDShieldSx1262PaPwrCfg 1000000000 0 = paCfgTable.getD 15 paCfgDefault ∧
    CDShieldSx1262PaPwrCfg 434000000 100 = paCfgTable.getD 15 paCfgDefault := by
  refine ⟨by decide, by decide, by decide, by decide⟩

end RalSx126xBsp

namespace RalSx126xBsp

/-- C4: for every context and every input, the Tx configuration sets the
expected power to the requested system power plus the (zero) modem Tx
offset, the configured power and the four PA fields to those of the
resolver's entry for the offset-adjusted power, and the ramp time to the
fixed 40 µs value; in particular `f = 434000000`, `p = 5` yields
expected 5, configured 16 and 40 µs ramp. -/
theorem get_tx_cfg_spec :
    (∀ (u : Unit) (i : TxCfgInputParams),
      (ral_sx126x_bsp_get_tx_cfg u i).chip_output_pwr_in_dbm_expected =
          i.system_output_pwr_in_dbm + modemTxOffset ∧
      (ral_sx126x_bsp_get_tx_cfg u i).chip_output_pwr_in_dbm_configured =
          (CDShieldSx1262PaPwrCfg i.freq_in_hz
            (i.system_output_pwr_in_dbm + modemTxOffset)).power ∧
      (ral_sx126x_bsp_get_tx_cfg u i).pa_cfg =
          (CDShieldSx1262PaPwrCfg i.freq_in_hz
            (i.system_output_pwr_in_dbm + modemTxOffset)).paConfig ∧
      (ral_sx126x_bsp_get_tx_cfg u i).pa_ramp_time = Sx126xRampTime.RAMP_40_US) ∧
    (ral_sx126x_bsp_get_tx_cfg () ⟨434000000, 5⟩).chip_output_pwr_in_dbm_expected = 5 ∧
    (ral_sx126x_bsp_get_tx_cfg () ⟨434000000, 5⟩).chip_output_pwr_in_dbm_configured = 16 ∧
    (ral_sx126x_bsp_get_tx_cfg () ⟨434000000, 5⟩).pa_ramp_time = Sx126xRampTime.RAMP_40_US := by
  refine ⟨fun u i => ⟨rfl, rfl, rfl, rfl⟩, by decide, by decide, by decide⟩

/-- C5: the three in-band concrete lookups of the spec return exactly
the stated entries (fields in order hp_max, pa_duty_cycle, device_sel,
pa_lut). -/
theorem in_band_concrete_values :
    CDShieldSx1262PaPwrCfg 434000000 (-9) = ⟨2, ⟨0x01, 0x01, 0x00, 0x01⟩⟩ ∧
    CDShieldSx1262PaPwrCfg 434000000 22 = ⟨22, ⟨0x07, 0x04, 0x00, 0x01⟩⟩ ∧
    CDShieldSx1262PaPwrCfg 434000000 0 = ⟨19, ⟨0x01, 0x01, 0x00, 0x01⟩⟩ := by
  refine ⟨by decide, by decide, by decide⟩

/-- C6: for every context, the regulator-mode getter yields the DCDC
enumerated value (never LDO) and the over-current-protection getter
yields the constant 0x38. -/
theorem reg_mode_and_ocp_constants :
    (∀ u : Unit, ral_sx126x_bsp_get_reg_mode u = Sx126xRegMod.DCDC ∧
      ral_sx126x_bsp_get_reg_mode u ≠ Sx126xRegMod.LDO) ∧
    (∀ u : Unit, ral_sx126x_bsp_get_ocp_value u = 0x38) :=
  ⟨fun _ => ⟨rfl, fun h => Sx126xRegMod.noConfusion h⟩, fun _ => rfl⟩

/-- C7: for every context and every prior state of the three
out-parameters, the XOSC getter sets tcxoIsRadioControlled to false and
leaves supplyVoltage and startupTimeInTick unchanged. -/
theorem xosc_cfg_frame :
    ∀ (u : Unit) (tcxo : Bool) (sv st : Nat),
      ral_sx126x_bsp_get_xosc_cfg u tcxo sv st = (false, sv, st) :=
  fun _ _ _ _ => rfl

/-- C8: the resolver and the Tx-configuration query are deterministic
and pure: any two calls with identical frequency and power inputs return
identical structures, and in this state-free embedding the constant
paCfgTable is never mutated. -/
theorem resolver_deterministic (f1 f2 : Nat) (p1 p2 : Int) (u1 u2 : Unit)
    (hf : f1 = f2) (hp : p1 = p2) :
    CDShieldSx1262PaPwrCfg f1 p1 = CDShieldSx1262PaPwrCfg f2 p2 ∧
    ral_sx126x_bsp_get_tx_cfg u1 ⟨f1, p1⟩ = ral_sx126x_bsp_get_tx_cfg u2 ⟨f2, p2⟩ := by
  subst hf
  subst hp
  exact ⟨rfl, rfl⟩

/-- Witness for the determinism theorem at `f = 434000000`, `p = 5`. -/
theorem resolver_deterministic_witness :
    CDShieldSx1262PaPwrCfg 434000000 5 = CDShieldSx1262PaPwrCfg 434000000 5 ∧
    ral_sx126x_bsp_get_tx_cfg () ⟨434000000, 5⟩ =
      ral_sx126x_bsp_get_tx_cfg () ⟨434000000, 5⟩ :=
  resolver_deterministic 434000000 434000000 5 5 () () rfl rfl

/-- C9: for every input the table index the resolver reads is in bounds
(below the table length 32), the resolver's result is exactly the table
slot at that index, and the fallback index `6 - (-9) = 15` is also in
bounds: the out-of-bounds branch of the table access is unreachable. -/
theorem table_access_in_bounds :
    ∀ (f : Nat) (p : Int),
      CDShieldSx1262PaPwrCfgIdx f p < paCfgTable.length ∧
      CDShieldSx1262PaPwrCfg f p =
        paCfgTable.getD (CDShieldSx1262PaPwrCfgIdx f p) paCfgDefault ∧
      (6 - CD_SHIELD_SX1262_MIN_PWR).toNat < paCfgTable.length := by
  intro f p
  refine ⟨?_, rfl, by decide⟩
  rw [paCfgTable_length]
  exact paCfgIdx_lt f p

/-- C10: every one of the 32 table entries has device_sel = 0,
pa_lut = 1 and achievable power in [2, 22]; consequently, for every
input (in range or not) the entry the resolver returns has those field
values and a configured power never exceeding 22 dBm. -/
theorem resolver_result_invariant :
    (∀ n : Fin 32,
      (paCfgTable.getD (n : Nat) paCfgDefault).paConfig.device_sel = 0 ∧
      (paCfgTable.getD (n : Nat) paCfgDefault).paConfig.pa_lut = 1 ∧
      2 ≤ (paCfgTable.getD (n : Nat) paCfgDefault).power ∧
      (paCfgTable.getD (n : Nat) paCfgDefault).power ≤ 22) ∧
    (∀ (f : Nat) (p : Int),
      (CDShieldSx1262PaPwrCfg f p).paConfig.device_sel = 0 ∧
      (CDShieldSx1262PaPwrCfg f p).paConfig.pa_lut = 1 ∧
      2 ≤ (CDShieldSx1262PaPwrCfg f p).power ∧
      (CDShieldSx1262PaPwrCfg f p).power ≤ 22) := by
  constructor
  · decide
  · intro f p
    have h := paCfgTable_entries_ok (CDShieldSx1262PaPwrCfgIdx f p) (paCfgIdx_lt f p)
    unfold CDShieldSx1262PaPwrCfg
    exact h

end RalSx126xBsp
